import Mathlib

/-!
Verification of the checkpoint-diff follow-up dispatcher of the repository:
the `reviewCode`, `documentCode` and `executeCustomDirection` controller
handlers, the `findLastIndex` message-log helper, the checkpoint baseline
resolution and the `generateDiffText` helper, shallowly embedded from the
TypeScript sources.  Collaborator calls of the task runtime
(`doesLatestTaskCompletionHaveNewChanges`, `presentMultifileDiff`,
`getDiffSinceLastCompletion`) are external and are modelled as oracles held
in a `TaskEnv`; each handler returns the list of effects it performed on the
task together with its outcome (`Except.error` models a thrown exception
propagated to the caller, `Except.ok ()` a successful `Empty` response).
-/

set_option autoImplicit false
set_option maxRecDepth 40000

/-- An entry of a task's message log (`ClineMessage`): its `say`/`ask`
discriminators and the optional checkpoint hash, as used by the handlers.
`none` models an absent (undefined) field. -/
structure ClineMessage where
  say : Option String
  ask : Option String
  lastCheckpointHash : Option String
deriving DecidableEq

instance : Inhabited ClineMessage := ⟨⟨none, none, none⟩⟩

/-- The predicate used by the handlers on log entries:
`m.say === "completion_result" || m.ask === "completion_result"`. -/
def isCompletionResult (m : ClineMessage) : Bool :=
  m.say == some "completion_result" || m.ask == some "completion_result"

/-- Inner loop of the `findLastIndex` helper of the handlers: the TypeScript
loop `for (let i = array.length - 1; i >= 0; i--)`; the `Nat` argument is the
number of indices still to scan, so fuel `i+1` checks index `i` next. -/
def findLastIndexLoop (a : List ClineMessage) (p : ClineMessage → Bool) : Nat → Int
  | 0 => -1
  | i + 1 => if p (a.getD i default) then (i : Int) else findLastIndexLoop a p i

/-- `findLastIndex` as defined inside `reviewCode`/`documentCode`: index of
the last entry satisfying `p`, or `-1`. -/
def findLastIndex (a : List ClineMessage) (p : ClineMessage → Bool) : Int :=
  findLastIndexLoop a p a.length

/-- One observable effect a handler performs on the task runtime. -/
inductive Effect where
  | say (kind text : String)
  | presentMultifileDiffCall
  | getDiffSinceLastCompletionCall
  | initTask (prompt : String)
deriving DecidableEq

/-- Whether an effect starts a new task with a composed prompt. -/
def Effect.isInit : Effect → Bool
  | .initTask _ => true
  | _ => false

/-- Whether an effect is a call into the diff store
(`getDiffSinceLastCompletion`). -/
def Effect.isGetDiff : Effect → Bool
  | .getDiffSinceLastCompletionCall => true
  | _ => false

/-- The active task as seen by a handler: its message log and the behaviour
of the three external task-runtime calls the handlers make.  An
`Except.error e` value means that call throws an exception with message
`e`. -/
structure TaskEnv where
  clineMessages : List ClineMessage
  doesLatestTaskCompletionHaveNewChanges : Except String Bool
  presentMultifileDiff : Except String Unit
  getDiffSinceLastCompletion : Except String String

/-- Result of a handler: the trace of effects performed on the task, and
either a thrown error or a successful `Empty` response. -/
abbrev HandlerResult := List Effect × Except String Unit

/-- The error text produced by the catch blocks of the handlers. -/
def errorAnalyzingMsg (e : String) : String :=
  "Error analyzing code changes: " ++ e

/-- The fixed review prompt of `src/core/controller/task/reviewCode.ts`. -/
def reviewPromptBasic : String :=
  "Review the code changes shown above that were made since the last completion.\n\n" ++
  "Focus on:\n" ++
  "1. Potential bugs or logic errors\n" ++
  "2. Type safety issues\n" ++
  "3. Missing error handling\n" ++
  "4. Performance concerns\n" ++
  "5. Security vulnerabilities\n\n" ++
  "Reference other code files as needed for context."

/-- The `reviewCode` handler of `src/core/controller/task/reviewCode.ts`:
notifies, then inside try/catch consults the has-new-changes predicate and
either sends the review prompt or the no-changes notice; any exception of
the try body is caught and reported via `say`. -/
def reviewCode (task : Option TaskEnv) : HandlerResult :=
  match task with
  | none => ([], .error "No active task")
  | some env =>
    let pre := [Effect.say "text" "Analyzing code changes since last completion..."]
    match env.doesLatestTaskCompletionHaveNewChanges with
    | .error e => (pre ++ [Effect.say "text" (errorAnalyzingMsg e)], .ok ())
    | .ok true =>
        (pre ++ [Effect.say "text" "Reviewing code changes...",
                 Effect.say "text" reviewPromptBasic], .ok ())
    | .ok false =>
        (pre ++ [Effect.say "text" "No significant changes found to review."], .ok ())

/-- The fixed documentation prompt of
`src/core/controller/task/documentCode.ts`. -/
def documentationPromptBasic : String :=
  "Generate documentation for the code changes since the last completion.\n\n" ++
  "Create clear, concise documentation that explains:\n" ++
  "1. Purpose of the new code\n" ++
  "2. How it integrates with existing functionality\n" ++
  "3. Key components and their responsibilities\n" ++
  "4. Usage examples where appropriate\n" ++
  "5. Any important considerations or limitations\n\n" ++
  "Format the documentation in a way that would be suitable for inclusion in project docs."

/-- The `documentCode` handler of
`src/core/controller/task/documentCode.ts`. -/
def documentCode (task : Option TaskEnv) : HandlerResult :=
  match task with
  | none => ([], .error "No active task")
  | some env =>
    let pre := [Effect.say "text" "Analyzing code changes for documentation..."]
    match env.doesLatestTaskCompletionHaveNewChanges with
    | .error e => (pre ++ [Effect.say "text" (errorAnalyzingMsg e)], .ok ())
    | .ok true =>
        (pre ++ [Effect.say "text" "Generating documentation for code changes...",
                 Effect.say "text" documentationPromptBasic], .ok ())
    | .ok false =>
        (pre ++ [Effect.say "text" "No significant changes found to document."], .ok ())

/-- The review prompt composed by the diff-including `reviewCode` variant:
the diff content is embedded fenced when non-empty (truthy), otherwise the
generic fallback sentence is used. -/
def composeReviewPrompt (diffContent : String) : String :=
  "Analyzing code changes since last completion...\n\n" ++
  (if diffContent = "" then
    "No textual diff to show, but changes were detected. Please analyze the current state of the relevant files.\n\n"
   else
    "The following code changes were made:\n```diff\n" ++ diffContent ++ "\n```\n\n") ++
  "Review the code changes.\n\n" ++
  "Focus on:\n" ++
  "1. Potential bugs or logic errors\n" ++
  "2. Type safety issues\n" ++
  "3. Missing error handling\n" ++
  "4. Performance concerns\n" ++
  "5. Security vulnerabilities\n\n" ++
  "Reference other code files as needed for context, using the read_file tool or targeted grep commands."

/-- The diff-including `reviewCode` variant: inside try/catch it consults the
predicate, presents the multifile diff in the UI, retrieves the diff text,
notifies, and starts a new task seeded with the composed review prompt; the
catch block reports any exception via `say` and the handler still returns
successfully. -/
def reviewCodeDiff (task : Option TaskEnv) : HandlerResult :=
  match task with
  | none => ([], .error "No active task")
  | some env =>
    match env.doesLatestTaskCompletionHaveNewChanges with
    | .error e => ([Effect.say "text" (errorAnalyzingMsg e)], .ok ())
    | .ok false => ([Effect.say "text" "No significant changes found to review."], .ok ())
    | .ok true =>
      match env.presentMultifileDiff with
      | .error e =>
          ([Effect.presentMultifileDiffCall,
            Effect.say "text" (errorAnalyzingMsg e)], .ok ())
      | .ok _ =>
        match env.getDiffSinceLastCompletion with
        | .error e =>
            ([Effect.presentMultifileDiffCall,
              Effect.getDiffSinceLastCompletionCall,
              Effect.say "text" (errorAnalyzingMsg e)], .ok ())
        | .ok diffContent =>
            ([Effect.presentMultifileDiffCall,
              Effect.getDiffSinceLastCompletionCall,
              Effect.say "text" "Reviewing code changes...",
              Effect.initTask (composeReviewPrompt diffContent)], .ok ())

/-- The documentation prompt composed by the diff-including `documentCode`
variant. -/
def composeDocumentationPrompt (diffContent : String) : String :=
  "Analyzing code changes for documentation...\n\n" ++
  (if diffContent = "" then
    "No textual diff to show, but changes were detected. Please analyze the current state of the relevant files.\n\n"
   else
    "The following code changes were made:\n```diff\n" ++ diffContent ++ "\n```\n\n") ++
  "Generate documentation for the code changes.\n\n" ++
  "Create clear, concise comments and documentation that explains:\n" ++
  "1. Purpose of the new code\n" ++
  "2. How it integrates with existing functionality\n" ++
  "3. Key components and their responsibilities\n" ++
  "4. Usage examples where appropriate\n" ++
  "5. Any important considerations or limitations\n\n" ++
  "Reference other code files as needed for context, using the read_file tool or targeted grep commands."

/-- The diff-including `documentCode` variant, same control flow as
`reviewCodeDiff` with the documentation strings. -/
def documentCodeDiff (task : Option TaskEnv) : HandlerResult :=
  match task with
  | none => ([], .error "No active task")
  | some env =>
    match env.doesLatestTaskCompletionHaveNewChanges with
    | .error e => ([Effect.say "text" (errorAnalyzingMsg e)], .ok ())
    | .ok false => ([Effect.say "text" "No significant changes found to document."], .ok ())
    | .ok true =>
      match env.presentMultifileDiff with
      | .error e =>
          ([Effect.presentMultifileDiffCall,
            Effect.say "text" (errorAnalyzingMsg e)], .ok ())
      | .ok _ =>
        match env.getDiffSinceLastCompletion with
        | .error e =>
            ([Effect.presentMultifileDiffCall,
              Effect.getDiffSinceLastCompletionCall,
              Effect.say "text" (errorAnalyzingMsg e)], .ok ())
        | .ok diffContent =>
            ([Effect.presentMultifileDiffCall,
              Effect.getDiffSinceLastCompletionCall,
              Effect.say "text" "Generating documentation for code changes...",
              Effect.initTask (composeDocumentationPrompt diffContent)], .ok ())

/-- The `executeCustomDirection` handler: requires an active task, then a
truthy (non-empty) prompt value, then notifies and sends the user text
verbatim as its own message. -/
def executeCustomDirection (task : Option TaskEnv) (value : Option String) : HandlerResult :=
  match task with
  | none => ([], .error "No active task")
  | some _ =>
    if value.getD "" = "" then ([], .error "Custom prompt is required")
    else
      ([Effect.say "text" "Executing custom direction...",
        Effect.say "text" (value.getD "")], .ok ())

/-- The alternate `executeCustomDirection` variant, identical control flow
with its own notification and error strings. -/
def executeCustomDirectionAlt (task : Option TaskEnv) (value : Option String) : HandlerResult :=
  match task with
  | none => ([], .error "No active task")
  | some _ =>
    if value.getD "" = "" then ([], .error "Custom direction prompt is required")
    else
      ([Effect.say "text" "Processing custom direction...",
        Effect.say "text" (value.getD "")], .ok ())

/-- Embedding of JavaScript `s.split("\n")` on a single-character separator:
auxiliary loop over the characters, accumulating the current line
reversed. -/
def splitLinesAux : List Char → List Char → List String
  | [], acc => [String.mk acc.reverse]
  | c :: cs, acc =>
      if c = '\n' then String.mk acc.reverse :: splitLinesAux cs []
      else splitLinesAux cs (c :: acc)

/-- `before.split("\n")` of the handlers' `generateDiffText` helper. -/
def splitLines (s : String) : List String :=
  splitLinesAux s.data []

/-- The sentinel returned by `generateDiffText` when no line differs. -/
def noVisibleChanges : String :=
  "// No visible changes (might be whitespace only)"

/-- `generateDiffText` as defined inside the `reviewCode` handlers: lines of
`before` absent from `after` are appended as removals, then lines of `after`
absent from `before` as additions; an empty result becomes the sentinel. -/
def generateDiffText (before after : String) : String :=
  let beforeLines := splitLines before
  let afterLines := splitLines after
  let withRemoved :=
    beforeLines.foldl
      (fun acc line =>
        if afterLines.contains line then acc else acc ++ ("- " ++ line ++ "\n")) ""
  let result :=
    afterLines.foldl
      (fun acc line =>
        if beforeLines.contains line then acc else acc ++ ("+ " ++ line ++ "\n")) withRemoved
  if result.length > 0 then result else noVisibleChanges

/-- The block of removal entries `generateDiffText` builds (the first loop,
started from the empty accumulator). -/
def removedBlock (before after : String) : String :=
  (splitLines before).foldl
    (fun acc line =>
      if (splitLines after).contains line then acc else acc ++ ("- " ++ line ++ "\n")) ""

/-- The block of addition entries `generateDiffText` builds (the second loop,
started from the empty accumulator). -/
def addedBlock (before after : String) : String :=
  (splitLines after).foldl
    (fun acc line =>
      if (splitLines before).contains line then acc else acc ++ ("+ " ++ line ++ "\n")) ""

/-- Whether `sub` occurs contiguously in `cs`. -/
def hasSubstringAux : List Char → List Char → Bool
  | [], sub => sub.isEmpty
  | c :: cs, sub => sub.isPrefixOf (c :: cs) || hasSubstringAux cs sub

/-- Whether the string `sub` occurs as a contiguous substring of `s`. -/
def containsSubstring (s sub : String) : Bool :=
  hasSubstringAux s.data sub.data

/-- Checkpoint resolution of the placeholder `reviewCode`/`documentCode`
variants: finds the latest completion entry (throwing when none), the prior
completion before it, falls back to the first `checkpoint_created` entry of
the whole log for the baseline, and throws when either hash is falsy;
returns the `(baseline, current)` hash pair those handlers validate. -/
def resolveCheckpoints (msgs : List ClineMessage) : Except String (String × String) :=
  let lastCompletionIndex := findLastIndex msgs isCompletionResult
  if lastCompletionIndex < 0 then
    .error "No completion found"
  else
    let lastCompletionMessage := msgs.getD lastCompletionIndex.toNat default
    let prevCompletionIndex :=
      findLastIndex (msgs.take lastCompletionIndex.toNat) isCompletionResult
    let prevCheckpointHash : Option String :=
      if prevCompletionIndex ≥ 0 then
        (msgs.getD prevCompletionIndex.toNat default).lastCheckpointHash
      else
        (msgs.find? (fun m => m.say == some "checkpoint_created")).bind
          (fun m => m.lastCheckpointHash)
    if lastCompletionMessage.lastCheckpointHash.getD "" = "" ∨
        prevCheckpointHash.getD "" = "" then
      .error "Checkpoint information not available"
    else
      .ok (prevCheckpointHash.getD "", lastCompletionMessage.lastCheckpointHash.getD "")

/-- The review prompt of the placeholder `reviewCode` variant (the trimmed
template literal, inner indentation preserved). -/
def reviewPromptCkpt : String :=
  "Review the code changes that were made since the last completion.\n        \n" ++
  "        Focus on:\n" ++
  "        1. Potential bugs or logic errors\n" ++
  "        2. Type safety issues\n" ++
  "        3. Missing error handling\n" ++
  "        4. Performance concerns\n" ++
  "        5. Security vulnerabilities\n        \n" ++
  "        Reference other code files as needed for context."

/-- The placeholder `reviewCode` variant: resolves and validates the
checkpoint pair (exceptions propagate to the caller, no try/catch), then
notifies and sends its fixed review prompt. -/
def reviewCodeCkpt (task : Option TaskEnv) : HandlerResult :=
  match task with
  | none => ([], .error "No active task")
  | some env =>
    match resolveCheckpoints env.clineMessages with
    | .error e => ([], .error e)
    | .ok _ =>
        ([Effect.say "text" "Analyzing code changes since last completion...",
          Effect.say "text" "Reviewing code changes...",
          Effect.say "text" reviewPromptCkpt], .ok ())

/-- The documentation prompt of the placeholder `documentCode` variant. -/
def documentationPromptCkpt : String :=
  "Generate documentation for the code changes that were made since the last completion.\n        \n" ++
  "        Create clear, concise documentation that explains:\n" ++
  "        1. Purpose of the new code\n" ++
  "        2. How it integrates with existing functionality\n" ++
  "        3. Key components and their responsibilities\n" ++
  "        4. Usage examples where appropriate\n" ++
  "        5. Any important considerations or limitations\n        \n" ++
  "        Format the documentation in a way that would be suitable for inclusion in project docs."

/-- The placeholder `documentCode` variant, same control flow as
`reviewCodeCkpt` with documentation strings. -/
def documentCodeCkpt (task : Option TaskEnv) : HandlerResult :=
  match task with
  | none => ([], .error "No active task")
  | some env =>
    match resolveCheckpoints env.clineMessages with
    | .error e => ([], .error e)
    | .ok _ =>
        ([Effect.say "text" "Analyzing code changes since last completion...",
          Effect.say "text" "Generating documentation for code changes...",
          Effect.say "text" documentationPromptCkpt], .ok ())

/-- Modelled from the spec: the Task method
`doesLatestTaskCompletionHaveNewChanges` is not among the sources (only its
callers are).  Per spec section 4.1 and 4.2 it is an existence check against
the checkpoint store between the baseline checkpoint (prior completion, else
the earliest `checkpoint_created` entry) and the latest completion's
checkpoint; when no completion exists, or either checkpoint hash is
unavailable, it reports no new changes rather than failing.  The store's
own existence check is the oracle `store`. -/
def doesLatestTaskCompletionHaveNewChangesModel
    (log : List ClineMessage) (store : String → String → Bool) : Bool :=
  let i := findLastIndex log isCompletionResult
  if i < 0 then false
  else
    let cur := (log.getD i.toNat default).lastCheckpointHash
    let j := findLastIndex (log.take i.toNat) isCompletionResult
    let base : Option String :=
      if j ≥ 0 then (log.getD j.toNat default).lastCheckpointHash
      else
        (log.find? (fun m => m.say == some "checkpoint_created")).bind
          (fun m => m.lastCheckpointHash)
    match cur, base with
    | some c, some b => store b c
    | _, _ => false

lemma findLastIndexLoop_eq_neg_one (a : List ClineMessage) (p : ClineMessage → Bool) :
    ∀ n : Nat, (∀ i : Nat, i < n → p (a.getD i default) = false) →
      findLastIndexLoop a p n = -1 := by
  intro n
  induction n with
  | zero => intro _; rfl
  | succ m ih =>
      intro h
      have hm : p (a.getD m default) = false := h m (Nat.lt_succ_self m)
      simp only [findLastIndexLoop, hm]
      exact ih (fun i hi => h i (Nat.lt_succ_of_lt hi))

lemma findLastIndexLoop_eq_last (a : List ClineMessage) (p : ClineMessage → Bool) :
    ∀ (n k : Nat), k < n → p (a.getD k default) = true →
      (∀ j : Nat, k < j → j < n → p (a.getD j default) = false) →
      findLastIndexLoop a p n = (k : Int) := by
  intro n
  induction n with
  | zero => intro k hk; omega
  | succ m ih =>
      intro k hk hp hafter
      rcases Nat.lt_succ_iff_lt_or_eq.mp hk with hlt | heq
      · have hm : p (a.getD m default) = false :=
          hafter m hlt (Nat.lt_succ_self m)
        simp only [findLastIndexLoop, hm]
        exact ih k hlt hp (fun j hj hjm => hafter j hj (Nat.lt_succ_of_lt hjm))
      · subst heq
        simp only [findLastIndexLoop, hp]
        simp

lemma getD_of_mem_false (a : List ClineMessage) (p : ClineMessage → Bool)
    (h : ∀ m ∈ a, p m = false) (i : Nat) (hi : i < a.length) :
    p (a.getD i default) = false := by
  rw [List.getD_eq_getElem a default hi]
  exact h _ (List.getElem_mem hi)

lemma findLastIndex_eq_neg_one (a : List ClineMessage) (p : ClineMessage → Bool)
    (h : ∀ m ∈ a, p m = false) : findLastIndex a p = -1 :=
  findLastIndexLoop_eq_neg_one a p a.length
    (fun i hi => getD_of_mem_false a p h i hi)

lemma findLastIndex_append_cons (xs ys : List ClineMessage) (c : ClineMessage)
    (p : ClineMessage → Bool) (hc : p c = true) (hys : ∀ m ∈ ys, p m = false) :
    findLastIndex (xs ++ c :: ys) p = (xs.length : Int) := by
  have hlen : (xs ++ c :: ys).length = xs.length + 1 + ys.length := by
    simp; omega
  have hgetc : (xs ++ c :: ys).getD xs.length default = c := by
    rw [List.getD_append_right xs (c :: ys) default xs.length (Nat.le_refl _)]
    simp
  have hafter : ∀ j : Nat, xs.length < j → j < (xs ++ c :: ys).length →
      p ((xs ++ c :: ys).getD j default) = false := by
    intro j hj hjlen
    rw [List.getD_append_right xs (c :: ys) default j (Nat.le_of_lt hj)]
    have hsub : j - xs.length = (j - xs.length - 1) + 1 := by omega
    rw [hsub]
    simp only [List.getD_cons_succ]
    have hylt : j - xs.length - 1 < ys.length := by
      rw [hlen] at hjlen; omega
    exact getD_of_mem_false ys p hys _ hylt
  have hk : xs.length < (xs ++ c :: ys).length := by rw [hlen]; omega
  have := findLastIndexLoop_eq_last (xs ++ c :: ys) p (xs ++ c :: ys).length
    xs.length hk (by rw [hgetc]; exact hc) hafter
  exact this

lemma getD_append_cons_length (xs ys : List ClineMessage) (c : ClineMessage) :
    (xs ++ c :: ys).getD xs.length default = c := by
  rw [List.getD_append_right xs (c :: ys) default xs.length (Nat.le_refl _)]
  simp

/-- C7: for every message log, the latest-completion lookup returns the
greatest index whose entry has `say` or `ask` equal to `completion_result`,
returns `-1` when no such entry exists, and an ask-sourced completion entry
is matched just like a say-sourced one. -/
theorem findLastIndex_completion_spec (a : List ClineMessage) :
    ((∀ m ∈ a, isCompletionResult m = false) →
        findLastIndex a isCompletionResult = -1) ∧
    (∀ k : Nat, k < a.length → isCompletionResult (a.getD k default) = true →
      (∀ j : Nat, k < j → j < a.length →
          isCompletionResult (a.getD j default) = false) →
      findLastIndex a isCompletionResult = (k : Int)) ∧
    (∀ m : ClineMessage, m.ask = some "completion_result" →
        isCompletionResult m = true) := by
  refine ⟨fun h => findLastIndex_eq_neg_one a isCompletionResult h, ?_, ?_⟩
  · intro k hk hp hafter
    exact findLastIndexLoop_eq_last a isCompletionResult a.length k hk hp hafter
  · intro m hm
    simp [isCompletionResult, hm]

/-- Witness for C7 at the one-entry log whose only completion entry is
ask-sourced. -/
theorem findLastIndex_completion_spec_witness :
    findLastIndex [⟨none, some "completion_result", none⟩] isCompletionResult =
      (0 : Int) :=
  (findLastIndex_completion_spec [⟨none, some "completion_result", none⟩]).2.1 0
    (by decide) (by decide) (by intro j hj hjlen; simp at hjlen; omega)

/-- C3 amended: a message log with zero completion entries makes the
latest-completion lookup return `-1`; the predicate-based Review and
Document dispatch variants over such a log (the has-new-changes call
behaving as the spec-modelled predicate) short-circuit to the no-changes
path without calling the diff store and return successfully — the
diff-including variants emitting only the informational no-changes message,
the simple variants emitting their unconditional analyzing notification
followed by the no-changes message — while the checkpoint-placeholder
variants instead raise the "No completion found" error on the same log. -/
theorem dispatch_no_completion_short_circuits (log : List ClineMessage)
    (store : String → String → Bool) (env : TaskEnv)
    (hno : ∀ m ∈ log, isCompletionResult m = false)
    (hlog : env.clineMessages = log)
    (henv : env.doesLatestTaskCompletionHaveNewChanges =
      .ok (doesLatestTaskCompletionHaveNewChangesModel log store)) :
    findLastIndex log isCompletionResult = -1 ∧
    reviewCodeDiff (some env) =
      ([Effect.say "text" "No significant changes found to review."], .ok ()) ∧
    documentCodeDiff (some env) =
      ([Effect.say "text" "No significant changes found to document."], .ok ()) ∧
    reviewCode (some env) =
      ([Effect.say "text" "Analyzing code changes since last completion...",
        Effect.say "text" "No significant changes found to review."], .ok ()) ∧
    documentCode (some env) =
      ([Effect.say "text" "Analyzing code changes for documentation...",
        Effect.say "text" "No significant changes found to document."], .ok ()) ∧
    (reviewCodeDiff (some env)).1.any Effect.isGetDiff = false ∧
    (reviewCode (some env)).1.any Effect.isGetDiff = false ∧
    reviewCodeCkpt (some env) = ([], .error "No completion found") ∧
    documentCodeCkpt (some env) = ([], .error "No completion found") := by
  have hidx : findLastIndex log isCompletionResult = -1 :=
    findLastIndex_eq_neg_one log isCompletionResult hno
  have hmodel : doesLatestTaskCompletionHaveNewChangesModel log store = false := by
    simp [doesLatestTaskCompletionHaveNewChangesModel, hidx]
  rw [hmodel] at henv
  have hres : resolveCheckpoints log = .error "No completion found" := by
    simp [resolveCheckpoints, hidx]
  refine ⟨hidx, ?_, ?_, ?_, ?_, ?_, ?_, ?_, ?_⟩
  · simp [reviewCodeDiff, henv]
  · simp [documentCodeDiff, henv]
  · simp [reviewCode, henv]
  · simp [documentCode, henv]
  · simp [reviewCodeDiff, henv, Effect.isGetDiff]
  · simp [reviewCode, henv, Effect.isGetDiff]
  · simp [reviewCodeCkpt, hlog, hres]
  · simp [documentCodeCkpt, hlog, hres]

/-- Witness for the amended C3 at a concrete completion-free log and
matching environment. -/
theorem dispatch_no_completion_short_circuits_witness :
    findLastIndex [⟨some "text", none, none⟩] isCompletionResult = -1 ∧
    reviewCodeDiff (some ⟨[⟨some "text", none, none⟩], .ok false, .ok (), .ok ""⟩) =
      ([Effect.say "text" "No significant changes found to review."], .ok ()) ∧
    documentCodeDiff (some ⟨[⟨some "text", none, none⟩], .ok false, .ok (), .ok ""⟩) =
      ([Effect.say "text" "No significant changes found to document."], .ok ()) ∧
    reviewCode (some ⟨[⟨some "text", none, none⟩], .ok false, .ok (), .ok ""⟩) =
      ([Effect.say "text" "Analyzing code changes since last completion...",
        Effect.say "text" "No significant changes found to review."], .ok ()) ∧
    documentCode (some ⟨[⟨some "text", none, none⟩], .ok false, .ok (), .ok ""⟩) =
      ([Effect.say "text" "Analyzing code changes for documentation...",
        Effect.say "text" "No significant changes found to document."], .ok ()) ∧
    (reviewCodeDiff (some ⟨[⟨some "text", none, none⟩], .ok false, .ok (), .ok ""⟩)).1.any
        Effect.isGetDiff = false ∧
    (reviewCode (some ⟨[⟨some "text", none, none⟩], .ok false, .ok (), .ok ""⟩)).1.any
        Effect.isGetDiff = false ∧
    reviewCodeCkpt (some ⟨[⟨some "text", none, none⟩], .ok false, .ok (), .ok ""⟩) =
      ([], .error "No completion found") ∧
    documentCodeCkpt (some ⟨[⟨some "text", none, none⟩], .ok false, .ok (), .ok ""⟩) =
      ([], .error "No completion found") :=
  dispatch_no_completion_short_circuits [⟨some "text", none, none⟩]
    (fun _ _ => false) ⟨[⟨some "text", none, none⟩], .ok false, .ok (), .ok ""⟩
    (by decide) rfl rfl

/-- C3 counterexample: dispatching the checkpoint-placeholder Review and
Document variants over a concrete log with zero completion entries raises
the "No completion found" error with an empty effect trace — the dispatch
does not short-circuit to the no-changes path, does not emit the
informational no-changes message, and does not complete successfully. -/
theorem dispatch_no_completion_ckpt_throws_counterexample :
    reviewCodeCkpt (some ⟨[⟨some "text", none, none⟩], .ok false, .ok (), .ok ""⟩) =
      ([], .error "No completion found") ∧
    documentCodeCkpt (some ⟨[⟨some "text", none, none⟩], .ok false, .ok (), .ok ""⟩) =
      ([], .error "No completion found") :=
  ⟨rfl, rfl⟩

/-- C6: on a log with exactly one completion entry (carrying checkpoint hash
`h1`) and at least one earlier `checkpoint_created` entry, baseline
resolution does not fail: it selects the hash `h0` of the earliest
`checkpoint_created` entry of the whole log, the resolved pair is
`(h0, h1)`, and the modelled has-new-changes predicate consults the store
between exactly those two hashes. -/
theorem resolveCheckpoints_single_completion (xs ys : List ClineMessage)
    (c m0 : ClineMessage) (h0 h1 : String) (store : String → String → Bool)
    (hc : isCompletionResult c = true)
    (hxs : ∀ m ∈ xs, isCompletionResult m = false)
    (hys : ∀ m ∈ ys, isCompletionResult m = false)
    (hearlier : ∃ m ∈ xs, m.say = some "checkpoint_created")
    (hfind : (xs ++ c :: ys).find? (fun m => m.say == some "checkpoint_created") =
      some m0)
    (hm0 : m0.lastCheckpointHash = some h0) (hh0 : h0 ≠ "")
    (hc1 : c.lastCheckpointHash = some h1) (hh1 : h1 ≠ "") :
    resolveCheckpoints (xs ++ c :: ys) = .ok (h0, h1) ∧
    doesLatestTaskCompletionHaveNewChangesModel (xs ++ c :: ys) store =
      store h0 h1 := by
  have hidx : findLastIndex (xs ++ c :: ys) isCompletionResult = (xs.length : Int) :=
    findLastIndex_append_cons xs ys c isCompletionResult hc hys
  have htonat : ((xs.length : Int)).toNat = xs.length := rfl
  have htake : (xs ++ c :: ys).take xs.length = xs := List.take_left xs (c :: ys)
  have hprev : findLastIndex xs isCompletionResult = -1 :=
    findLastIndex_eq_neg_one xs isCompletionResult hxs
  have hgetc : (xs ++ c :: ys).getD xs.length default = c :=
    getD_append_cons_length xs ys c
  have hnl : ¬((xs.length : Int) < 0) := by omega
  have hng : ¬((-1 : Int) ≥ 0) := by omega
  constructor
  · simp only [resolveCheckpoints, hidx, htonat, htake, hprev, hgetc, hfind]
    rw [if_neg hnl, if_neg hng]
    simp [hm0, hc1, hh0, hh1]
  · simp only [doesLatestTaskCompletionHaveNewChangesModel, hidx, htonat, htake,
      hprev, hgetc, hfind]
    rw [if_neg hnl, if_neg hng]
    simp [hm0, hc1]

/-- Witness for C6 at the two-entry log `checkpoint_created(h0)` then
`completion_result(h1)`. -/
theorem resolveCheckpoints_single_completion_witness :
    resolveCheckpoints
        [⟨some "checkpoint_created", none, some "h0"⟩,
         ⟨some "completion_result", none, some "h1"⟩] = .ok ("h0", "h1") ∧
    doesLatestTaskCompletionHaveNewChangesModel
        [⟨some "checkpoint_created", none, some "h0"⟩,
         ⟨some "completion_result", none, some "h1"⟩] (fun _ _ => true) =
      (fun (_ _ : String) => true) "h0" "h1" :=
  resolveCheckpoints_single_completion
    [⟨some "checkpoint_created", none, some "h0"⟩] []
    ⟨some "completion_result", none, some "h1"⟩
    ⟨some "checkpoint_created", none, some "h0"⟩ "h0" "h1" (fun _ _ => true)
    (by decide) (by decide) (by decide)
    ⟨⟨some "checkpoint_created", none, some "h0"⟩, by decide⟩
    (by decide) (by decide) (by decide) (by decide) (by decide)

/-- C1: every handler (Review, Document, Custom, in all their variants)
rejects immediately with the no-active-task error when the controller holds
no task, and performs no `say` call (empty effect trace) before the error. -/
theorem dispatch_no_active_task_rejects :
    reviewCode none = ([], .error "No active task") ∧
    documentCode none = ([], .error "No active task") ∧
    reviewCodeDiff none = ([], .error "No active task") ∧
    documentCodeDiff none = ([], .error "No active task") ∧
    reviewCodeCkpt none = ([], .error "No active task") ∧
    documentCodeCkpt none = ([], .error "No active task") ∧
    (∀ v : Option String,
      executeCustomDirection none v = ([], .error "No active task")) ∧
    (∀ v : Option String,
      executeCustomDirectionAlt none v = ([], .error "No active task")) :=
  ⟨rfl, rfl, rfl, rfl, rfl, rfl, fun _ => rfl, fun _ => rfl⟩

/-- C2: with an active task, an exception thrown by the has-new-changes
check, the UI diff presentation or the diff retrieval is caught inside the
Review/Document handlers, reported as a
`"Error analyzing code changes: ..."` text message, and the handler still
returns a successful `Empty` response. -/
theorem dispatch_absorbs_downstream_errors (env : TaskEnv) (e : String) :
    (env.doesLatestTaskCompletionHaveNewChanges = .error e →
      reviewCode (some env) =
        ([Effect.say "text" "Analyzing code changes since last completion...",
          Effect.say "text" (errorAnalyzingMsg e)], .ok ()) ∧
      documentCode (some env) =
        ([Effect.say "text" "Analyzing code changes for documentation...",
          Effect.say "text" (errorAnalyzingMsg e)], .ok ()) ∧
      reviewCodeDiff (some env) =
        ([Effect.say "text" (errorAnalyzingMsg e)], .ok ()) ∧
      documentCodeDiff (some env) =
        ([Effect.say "text" (errorAnalyzingMsg e)], .ok ())) ∧
    (env.doesLatestTaskCompletionHaveNewChanges = .ok true →
      env.presentMultifileDiff = .error e →
      reviewCodeDiff (some env) =
        ([Effect.presentMultifileDiffCall,
          Effect.say "text" (errorAnalyzingMsg e)], .ok ()) ∧
      documentCodeDiff (some env) =
        ([Effect.presentMultifileDiffCall,
          Effect.say "text" (errorAnalyzingMsg e)], .ok ())) ∧
    (env.doesLatestTaskCompletionHaveNewChanges = .ok true →
      env.presentMultifileDiff = .ok () →
      env.getDiffSinceLastCompletion = .error e →
      reviewCodeDiff (some env) =
        ([Effect.presentMultifileDiffCall,
          Effect.getDiffSinceLastCompletionCall,
          Effect.say "text" (errorAnalyzingMsg e)], .ok ()) ∧
      documentCodeDiff (some env) =
        ([Effect.presentMultifileDiffCall,
          Effect.getDiffSinceLastCompletionCall,
          Effect.say "text" (errorAnalyzingMsg e)], .ok ())) := by
  refine ⟨fun h1 => ?_, fun h1 h2 => ?_, fun h1 h2 h3 => ?_⟩
  · exact ⟨by simp [reviewCode, h1], by simp [documentCode, h1],
      by simp [reviewCodeDiff, h1], by simp [documentCodeDiff, h1]⟩
  · exact ⟨by simp [reviewCodeDiff, h1, h2], by simp [documentCodeDiff, h1, h2]⟩
  · exact ⟨by simp [reviewCodeDiff, h1, h2, h3],
      by simp [documentCodeDiff, h1, h2, h3]⟩

/-- Witness for C2: concrete environments whose predicate, presentation and
diff-retrieval calls throw. -/
theorem dispatch_absorbs_downstream_errors_witness :
    reviewCodeDiff (some ⟨[], .error "boom", .ok (), .ok ""⟩) =
      ([Effect.say "text" (errorAnalyzingMsg "boom")], .ok ()) ∧
    reviewCodeDiff (some ⟨[], .ok true, .error "ui", .ok ""⟩) =
      ([Effect.presentMultifileDiffCall,
        Effect.say "text" (errorAnalyzingMsg "ui")], .ok ()) ∧
    reviewCodeDiff (some ⟨[], .ok true, .ok (), .error "store"⟩) =
      ([Effect.presentMultifileDiffCall,
        Effect.getDiffSinceLastCompletionCall,
        Effect.say "text" (errorAnalyzingMsg "store")], .ok ()) :=
  ⟨((dispatch_absorbs_downstream_errors ⟨[], .error "boom", .ok (), .ok ""⟩
      "boom").1 rfl).2.2.1,
   ((dispatch_absorbs_downstream_errors ⟨[], .ok true, .error "ui", .ok ""⟩
      "ui").2.1 rfl rfl).1,
   ((dispatch_absorbs_downstream_errors ⟨[], .ok true, .ok (), .error "store"⟩
      "store").2.2 rfl rfl rfl).1⟩

/-- C8: a Custom dispatch with an active task and an absent or empty prompt
value raises the missing-prompt error with no prior `say` call, and the
no-active-task error takes precedence (it is raised first for every value,
the empty one included). -/
theorem executeCustomDirection_missing_prompt (env : TaskEnv) (v : Option String) :
    ((v = none ∨ v = some "") →
      executeCustomDirection (some env) v =
        ([], .error "Custom prompt is required") ∧
      executeCustomDirectionAlt (some env) v =
        ([], .error "Custom direction prompt is required")) ∧
    executeCustomDirection none v = ([], .error "No active task") ∧
    executeCustomDirectionAlt none v = ([], .error "No active task") := by
  refine ⟨fun hv => ?_, rfl, rfl⟩
  rcases hv with h | h <;> subst h <;> exact ⟨rfl, rfl⟩

/-- Witness for C8 at the empty-string value. -/
theorem executeCustomDirection_missing_prompt_witness :
    executeCustomDirection (some ⟨[], .ok false, .ok (), .ok ""⟩) (some "") =
      ([], .error "Custom prompt is required") ∧
    executeCustomDirectionAlt (some ⟨[], .ok false, .ok (), .ok ""⟩) (some "") =
      ([], .error "Custom direction prompt is required") :=
  (executeCustomDirection_missing_prompt ⟨[], .ok false, .ok (), .ok ""⟩
    (some "")).1 (Or.inr rfl)

/-- C9: a non-empty user prompt is sent verbatim as the entire prompt
message on the task, with no template text around it (the preceding
notification is a separate message). -/
theorem executeCustomDirection_verbatim (env : TaskEnv) (s : String)
    (h : s ≠ "") :
    executeCustomDirection (some env) (some s) =
      ([Effect.say "text" "Executing custom direction...",
        Effect.say "text" s], .ok ()) ∧
    executeCustomDirectionAlt (some env) (some s) =
      ([Effect.say "text" "Processing custom direction...",
        Effect.say "text" s], .ok ()) := by
  constructor
  · simp [executeCustomDirection, h]
  · simp [executeCustomDirectionAlt, h]

/-- Witness for C9 at a concrete non-empty prompt. -/
theorem executeCustomDirection_verbatim_witness :
    executeCustomDirection (some ⟨[], .ok false, .ok (), .ok ""⟩)
        (some "Refactor the parser module") =
      ([Effect.say "text" "Executing custom direction...",
        Effect.say "text" "Refactor the parser module"], .ok ()) ∧
    executeCustomDirectionAlt (some ⟨[], .ok false, .ok (), .ok ""⟩)
        (some "Refactor the parser module") =
      ([Effect.say "text" "Processing custom direction...",
        Effect.say "text" "Refactor the parser module"], .ok ()) :=
  executeCustomDirection_verbatim ⟨[], .ok false, .ok (), .ok ""⟩
    "Refactor the parser module" (by decide)

/-- C4 counterexample: with new changes detected and a throwing
`presentMultifileDiff`, the Review and Document diff handlers catch the
failure and return successfully, but no prompt is composed or submitted —
the effect trace contains no `initTask`, refuting that the prompt is still
emitted when the presentation call throws. -/
theorem presentDiff_failure_blocks_prompt_counterexample :
    reviewCodeDiff (some ⟨[], .ok true, .error "ui failure", .ok ""⟩) =
      ([Effect.presentMultifileDiffCall,
        Effect.say "text" (errorAnalyzingMsg "ui failure")], .ok ()) ∧
    (reviewCodeDiff (some ⟨[], .ok true, .error "ui failure", .ok ""⟩)).1.any
        Effect.isInit = false ∧
    documentCodeDiff (some ⟨[], .ok true, .error "ui failure", .ok ""⟩) =
      ([Effect.presentMultifileDiffCall,
        Effect.say "text" (errorAnalyzingMsg "ui failure")], .ok ()) ∧
    (documentCodeDiff (some ⟨[], .ok true, .error "ui failure", .ok ""⟩)).1.any
        Effect.isInit = false :=
  ⟨rfl, rfl, rfl, rfl⟩

/-- C4 amended: a `presentMultifileDiff` failure is non-fatal to the
dispatch call — it is caught, reported via a `say` error message, and the
handler returns a successful `Empty` response — but it does prevent prompt
emission: the diff is not retrieved and no prompt is composed or
submitted. -/
theorem presentDiff_failure_nonfatal_no_prompt (env : TaskEnv) (e : String)
    (h1 : env.doesLatestTaskCompletionHaveNewChanges = .ok true)
    (h2 : env.presentMultifileDiff = .error e) :
    reviewCodeDiff (some env) =
      ([Effect.presentMultifileDiffCall,
        Effect.say "text" (errorAnalyzingMsg e)], .ok ()) ∧
    (reviewCodeDiff (some env)).1.any Effect.isInit = false ∧
    documentCodeDiff (some env) =
      ([Effect.presentMultifileDiffCall,
        Effect.say "text" (errorAnalyzingMsg e)], .ok ()) ∧
    (documentCodeDiff (some env)).1.any Effect.isInit = false := by
  refine ⟨by simp [reviewCodeDiff, h1, h2], ?_, by simp [documentCodeDiff, h1, h2], ?_⟩
  · simp [reviewCodeDiff, h1, h2, Effect.isInit]
  · simp [documentCodeDiff, h1, h2, Effect.isInit]

/-- Witness for the amended C4 at a concrete environment. -/
theorem presentDiff_failure_nonfatal_no_prompt_witness :
    reviewCodeDiff (some ⟨[], .ok true, .error "denied", .ok "d"⟩) =
      ([Effect.presentMultifileDiffCall,
        Effect.say "text" (errorAnalyzingMsg "denied")], .ok ()) ∧
    (reviewCodeDiff (some ⟨[], .ok true, .error "denied", .ok "d"⟩)).1.any
        Effect.isInit = false ∧
    documentCodeDiff (some ⟨[], .ok true, .error "denied", .ok "d"⟩) =
      ([Effect.presentMultifileDiffCall,
        Effect.say "text" (errorAnalyzingMsg "denied")], .ok ()) ∧
    (documentCodeDiff (some ⟨[], .ok true, .error "denied", .ok "d"⟩)).1.any
        Effect.isInit = false :=
  presentDiff_failure_nonfatal_no_prompt ⟨[], .ok true, .error "denied", .ok "d"⟩
    "denied" rfl rfl

/-- C5 counterexample: when the diff store returns the empty string, the
composed Review prompt uses the same generic no-content fallback sentence as
when no diff content exists, contains no fenced diff block, and contains no
distinct "No visible changes" style fallback — refuting the claimed
distinction. -/
theorem empty_diff_no_distinct_fallback_counterexample :
    reviewCodeDiff (some ⟨[], .ok true, .ok (), .ok ""⟩) =
      ([Effect.presentMultifileDiffCall,
        Effect.getDiffSinceLastCompletionCall,
        Effect.say "text" "Reviewing code changes...",
        Effect.initTask (composeReviewPrompt "")], .ok ()) ∧
    containsSubstring (composeReviewPrompt "") "No visible changes" = false ∧
    containsSubstring (composeReviewPrompt "")
      "No textual diff to show, but changes were detected" = true := by
  refine ⟨rfl, by decide, by decide⟩

/-- C5 amended: when the has-new-changes predicate holds, the presentation
succeeds and the diff store returns the empty string, the Review handler
still emits a prompt, but its diff section carries the generic
"No textual diff to show, but changes were detected" fallback — the same
text used when no diff content is available — with no fenced diff block and
no distinct "no visible changes" fallback. -/
theorem empty_diff_uses_generic_fallback (env : TaskEnv)
    (h1 : env.doesLatestTaskCompletionHaveNewChanges = .ok true)
    (h2 : env.presentMultifileDiff = .ok ())
    (h3 : env.getDiffSinceLastCompletion = .ok "") :
    reviewCodeDiff (some env) =
      ([Effect.presentMultifileDiffCall,
        Effect.getDiffSinceLastCompletionCall,
        Effect.say "text" "Reviewing code changes...",
        Effect.initTask (composeReviewPrompt "")], .ok ()) ∧
    containsSubstring (composeReviewPrompt "")
      "No textual diff to show, but changes were detected" = true ∧
    containsSubstring (composeReviewPrompt "") "```diff" = false ∧
    containsSubstring (composeReviewPrompt "") "No visible changes" = false := by
  refine ⟨by simp [reviewCodeDiff, h1, h2, h3], by decide, by decide, by decide⟩

/-- Witness for the amended C5 at a concrete environment. -/
theorem empty_diff_uses_generic_fallback_witness :
    reviewCodeDiff (some ⟨[], .ok true, .ok (), .ok ""⟩) =
      ([Effect.presentMultifileDiffCall,
        Effect.getDiffSinceLastCompletionCall,
        Effect.say "text" "Reviewing code changes...",
        Effect.initTask (composeReviewPrompt "")], .ok ()) ∧
    containsSubstring (composeReviewPrompt "")
      "No textual diff to show, but changes were detected" = true ∧
    containsSubstring (composeReviewPrompt "") "```diff" = false ∧
    containsSubstring (composeReviewPrompt "") "No visible changes" = false :=
  empty_diff_uses_generic_fallback ⟨[], .ok true, .ok (), .ok ""⟩ rfl rfl rfl

lemma ite_append_eq (excl : List String) (tag : String) :
    (fun (acc line : String) =>
        if excl.contains line then acc else acc ++ (tag ++ line ++ "\n")) =
      fun (acc line : String) =>
        acc ++ (if excl.contains line then "" else tag ++ line ++ "\n") := by
  funext acc line
  by_cases hc : excl.contains line = true
  · rw [if_pos hc, if_pos hc, String.append_empty]
  · rw [if_neg hc, if_neg hc]

lemma foldl_append_shift (g : String → String) :
    ∀ (lines : List String) (init : String),
      lines.foldl (fun acc l => acc ++ g l) init =
        init ++ lines.foldl (fun acc l => acc ++ g l) "" := by
  intro lines
  induction lines with
  | nil => intro init; exact (String.append_empty init).symm
  | cons l ls ih =>
      intro init
      simp only [List.foldl_cons]
      rw [ih (init ++ g l), ih (("" : String) ++ g l), String.empty_append,
        String.append_assoc]

lemma foldl_diff_skip_all (excl : List String) (tag : String) :
    ∀ (lines : List String) (init : String),
      (∀ l ∈ lines, excl.contains l = true) →
      lines.foldl
        (fun acc line =>
          if excl.contains line then acc else acc ++ (tag ++ line ++ "\n"))
        init = init := by
  intro lines
  induction lines with
  | nil => intro init _; rfl
  | cons l ls ih =>
      intro init h
      have hl : excl.contains l = true := h l (List.mem_cons_self l ls)
      simp only [List.foldl_cons, hl, if_true]
      exact ih init (fun x hx => h x (List.mem_cons_of_mem l hx))

/-- C10: when the sets of lines of `before` and `after` agree (so also for
`after = before`, reorderings, or re-duplications), `generateDiffText`
returns the no-visible-changes sentinel; and whenever it does not return the
sentinel, its output decomposes as the block of removed-line entries
followed by the block of added-line entries, so every removal precedes every
addition. -/
theorem generateDiffText_spec (before after : String) :
    ((∀ l : String, l ∈ splitLines before ↔ l ∈ splitLines after) →
        generateDiffText before after = noVisibleChanges) ∧
    (generateDiffText before after ≠ noVisibleChanges →
        generateDiffText before after =
          removedBlock before after ++ addedBlock before after) := by
  have key : ∀ init : String,
      (splitLines after).foldl
        (fun acc line =>
          if (splitLines before).contains line then acc
          else acc ++ ("+ " ++ line ++ "\n")) init =
      init ++ (splitLines after).foldl
        (fun acc line =>
          if (splitLines before).contains line then acc
          else acc ++ ("+ " ++ line ++ "\n")) "" := by
    intro init
    rw [ite_append_eq (splitLines before) "+ "]
    exact foldl_append_shift _ (splitLines after) init
  have hshiftEq : generateDiffText before after =
      if (removedBlock before after ++ addedBlock before after).length > 0 then
        removedBlock before after ++ addedBlock before after
      else noVisibleChanges := by
    simp only [generateDiffText, removedBlock, addedBlock]
    rw [key]
  constructor
  · intro hEq
    have hR : removedBlock before after = "" := by
      apply foldl_diff_skip_all
      intro l hl
      exact List.elem_iff.mpr ((hEq l).mp hl)
    have hA : addedBlock before after = "" := by
      apply foldl_diff_skip_all
      intro l hl
      exact List.elem_iff.mpr ((hEq l).mpr hl)
    rw [hshiftEq, hR, hA]
    simp
  · intro h
    by_cases hlen :
        (removedBlock before after ++ addedBlock before after).length > 0
    · rw [hshiftEq, if_pos hlen]
    · rw [hshiftEq, if_neg hlen] at h
      exact absurd rfl h

/-- Witness for C10: a line-reordered pair collapses to the sentinel, and a
genuinely changed pair decomposes into the removal block followed by the
addition block. -/
theorem generateDiffText_spec_witness :
    generateDiffText "a\nb" "b\na" = noVisibleChanges ∧
    generateDiffText "x\ny" "z" =
      removedBlock "x\ny" "z" ++ addedBlock "x\ny" "z" :=
  ⟨(generateDiffText_spec "a\nb" "b\na").1 (by
      have e1 : splitLines "a\nb" = ["a", "b"] := rfl
      have e2 : splitLines "b\na" = ["b", "a"] := rfl
      intro l
      rw [e1, e2]
      simp [or_comm]),
   (generateDiffText_spec "x\ny" "z").2 (by decide)⟩
